import Mathlib

set_option autoImplicit false

namespace JobDirectory

/-- JavaScript number as it occurs in this program: NaN or an integer value (the
numeric fields are epoch timestamps and salaries, integral in practice). -/
inductive JSNum where
  | nan : JSNum
  | int : Int → JSNum
  deriving DecidableEq

/-- JavaScript value as it can appear in a numeric field of a raw API record. -/
inductive JSVal where
  | undef : JSVal
  | nullv : JSVal
  | num : JSNum → JSVal
  | str : String → JSVal
  deriving DecidableEq

/-- Parses a non-empty run of decimal digits; none on any other input. -/
def parseNatDigits (cs : List Char) : Option Nat :=
  if cs.isEmpty then none
  else
    cs.foldl
      (fun acc c =>
        match acc with
        | none => none
        | some n => if c.isDigit then some (n * 10 + (c.toNat - 48)) else none)
      (some 0)

/-- JavaScript Number() conversion: undefined gives NaN, null gives 0, the empty
string gives 0, an integer-literal string (optionally negated) parses, any other
string gives NaN. -/
def jsToNumber : JSVal → JSNum
  | JSVal.undef => JSNum.nan
  | JSVal.nullv => JSNum.int 0
  | JSVal.num n => n
  | JSVal.str s =>
      match s.data with
      | [] => JSNum.int 0
      | '-' :: cs =>
          match parseNatDigits cs with
          | some n => JSNum.int (-(n : Int))
          | none => JSNum.nan
      | cs =>
          match parseNatDigits cs with
          | some n => JSNum.int (n : Int)
          | none => JSNum.nan

/-- JavaScript nullish coalescing a ?? b: b is taken only when a is null or
undefined. -/
def jsNullish (a b : JSVal) : JSVal :=
  match a with
  | JSVal.undef => b
  | JSVal.nullv => b
  | _ => a

/-- Embeds the source expression Number(x) ?? null that fetchJobs applies to
minSalary, maxSalary, pubDate and expiryDate of each raw record. -/
def normalizeNum (v : JSVal) : JSVal :=
  jsNullish (JSVal.num (jsToNumber v)) JSVal.nullv

/-- JavaScript truthiness on JSVal. -/
def jsTruthy : JSVal → Bool
  | JSVal.undef => false
  | JSVal.nullv => false
  | JSVal.num JSNum.nan => false
  | JSVal.num (JSNum.int v) => v != 0
  | JSVal.str s => s != ""

/-- JavaScript multiplication on numbers: NaN is absorbing. -/
def jsNumMul : JSNum → JSNum → JSNum
  | JSNum.nan, _ => JSNum.nan
  | _, JSNum.nan => JSNum.nan
  | JSNum.int a, JSNum.int b => JSNum.int (a * b)

/-- JavaScript strict less-than on numbers: any comparison with NaN is false. -/
def jsNumLt : JSNum → JSNum → Bool
  | JSNum.nan, _ => false
  | _, JSNum.nan => false
  | JSNum.int a, JSNum.int b => decide (a < b)

/-- Embeds isExpired of JobFinderScreen and SavedJobsScreen: the boolean value of
expiryDate && expiryDate * 1000 < Date.now(), with nowMs the current time in
milliseconds. -/
def isExpired (expiryDate : JSVal) (nowMs : Int) : Bool :=
  jsTruthy expiryDate &&
    jsNumLt (jsNumMul (jsToNumber expiryDate) (JSNum.int 1000)) (JSNum.int nowMs)

/-- JavaScript subtraction on numbers: NaN is absorbing. -/
def jsNumSub : JSNum → JSNum → JSNum
  | JSNum.nan, _ => JSNum.nan
  | _, JSNum.nan => JSNum.nan
  | JSNum.int a, JSNum.int b => JSNum.int (a - b)

/-- Embeds isExpiryNear of ApplicationFormScreen: the boolean value of
job.expiryDate && job.expiryDate - today < 432000 (five days in seconds),
where today is Date.now() / 1000, the current time in seconds. When true the
screen renders the "Expires soon!" warning. -/
def isExpiryNear (expiryDate : JSVal) (todaySec : Int) : Bool :=
  jsTruthy expiryDate &&
    jsNumLt (jsNumSub (jsToNumber expiryDate) (JSNum.int todaySec)) (JSNum.int 432000)

/-- JavaScript String.prototype.toLowerCase, character by character. -/
def jsToLower (s : String) : String :=
  String.mk (s.data.map Char.toLower)

/-- Tests whether the first character list is an initial segment of the second. -/
def matchFront : List Char → List Char → Bool
  | [], _ => true
  | _ :: _, [] => false
  | a :: as, b :: bs => (a == b) && matchFront as bs

/-- JavaScript String.prototype.includes: the needle occurs contiguously in the
hay; every string includes the empty string. -/
def strIncludes (hay needle : String) : Bool :=
  (List.range (hay.data.length + 1)).any (fun i => matchFront needle.data (hay.data.drop i))

/-- Raw record as delivered by the API: every string field optional, the numeric
fields holding an arbitrary JS value. -/
structure RawJob where
  title : Option String
  mainCategory : Option String
  pubDate : JSVal
  expiryDate : JSVal
  companyName : Option String
  jobType : Option String
  workModel : Option String
  seniorityLevel : Option String
  minSalary : JSVal
  maxSalary : JSVal
  companyLogo : Option String
  deriving DecidableEq

/-- JavaScript value || default on an optional string field: the default is used
when the field is absent or the empty string, both falsy. -/
def orDefault (v : Option String) (d : String) : String :=
  match v with
  | none => d
  | some s => if s = "" then d else s

/-- Job record as constructed by fetchJobs (the Job interface of JobContext); the
numeric fields hold whatever Number(x) ?? null produced. -/
structure Job where
  id : String
  title : String
  companyName : String
  mainCategory : String
  pubDate : JSVal
  expiryDate : JSVal
  companyLogo : String
  jobType : String
  workModel : String
  seniorityLevel : String
  minSalary : JSVal
  maxSalary : JSVal
  deriving DecidableEq

/-- Embeds the per-record mapping inside fetchJobs that builds a Job from a raw
record and a freshly generated identifier. -/
def mkJob (id : String) (r : RawJob) : Job :=
  { id := id
    title := orDefault r.title "No Title"
    mainCategory := orDefault r.mainCategory "Unknown"
    pubDate := normalizeNum r.pubDate
    expiryDate := normalizeNum r.expiryDate
    companyName := orDefault r.companyName "Unknown Company"
    jobType := orDefault r.jobType "Unknown"
    workModel := orDefault r.workModel "Unknown"
    seniorityLevel := orDefault r.seniorityLevel "Unspecified"
    minSalary := normalizeNum r.minSalary
    maxSalary := normalizeNum r.maxSalary
    companyLogo := orDefault r.companyLogo "" }

/-- State owned by JobProvider: saved list, full list, filtered view, the two
busy flags and the page cursor. -/
structure JobState where
  savedJobs : List Job
  jobs : List Job
  filteredJobs : List Job
  loading : Bool
  loadingMore : Bool
  page : Nat
  deriving DecidableEq

/-- Outcome of the network request inside fetchJobs: a payload whose jobs field
is an array of raw records, a payload whose jobs field is not an array, or a
transport error (the catch branch). -/
inductive FetchOutcome where
  | success : List RawJob → FetchOutcome
  | badPayload : FetchOutcome
  | networkError : FetchOutcome
  deriving DecidableEq

/-- Maps the raw records to jobs, drawing the n-th fresh identifier from genId
(the uuid generator of the source). -/
def mapRawJobs (genId : Nat → String) (raws : List RawJob) : List Job :=
  raws.enum.map (fun p => mkJob (genId p.1) p.2)

/-- Body of fetchJobs after the busy guard: sets the busy flag chosen by the page
number, applies the outcome (append or replace of the two lists on success, no
list change on a non-array payload or a transport error), and finally clears
both flags. -/
def fetchJobsGo (s : JobState) (pageNumber : Nat) (append : Bool)
    (outcome : FetchOutcome) (genId : Nat → String) : JobState :=
  let s1 := if pageNumber = 1 then { s with loading := true } else { s with loadingMore := true }
  let s2 :=
    match outcome with
    | FetchOutcome.success raws =>
        let jobsWithIds := mapRawJobs genId raws
        if append then
          { s1 with jobs := s1.jobs ++ jobsWithIds,
                    filteredJobs := s1.filteredJobs ++ jobsWithIds }
        else
          { s1 with jobs := jobsWithIds, filteredJobs := jobsWithIds }
    | FetchOutcome.badPayload => s1
    | FetchOutcome.networkError => s1
  { s2 with loading := false, loadingMore := false }

/-- Guard and body of fetchJobs as a closure over the flag values it captured.
The source guard reads the loading and loadingMore bindings of the render in
which the closure was created, not the live state. -/
def fetchJobsClosure (capturedLoading capturedLoadingMore : Bool) (s : JobState)
    (pageNumber : Nat) (append : Bool) (outcome : FetchOutcome)
    (genId : Nat → String) : JobState :=
  if capturedLoading || capturedLoadingMore then s
  else fetchJobsGo s pageNumber append outcome genId

/-- Embeds the fetchJobs the context exposes. In the source fetchJobs is
memoized with useCallback and an empty dependency list, so the one closure
created at the first render is used for the provider's whole lifetime, and its
guard permanently compares the initial flag values, both false: the guard is
dead and the body always runs. -/
def fetchJobs (s : JobState) (pageNumber : Nat) (append : Bool)
    (outcome : FetchOutcome) (genId : Nat → String) : JobState :=
  fetchJobsClosure false false s pageNumber append outcome genId

/-- Predicate of the non-empty branch of searchJobs: some of the six string
fields, lower-cased, contains the lower-cased search text. -/
def jobMatches (text : String) (j : Job) : Bool :=
  [j.title, j.companyName, j.mainCategory, j.jobType, j.workModel, j.seniorityLevel].any
    (fun field => strIncludes (jsToLower field) (jsToLower text))

/-- Body of searchJobs as a closure over the jobs list it captured: both source
branches read the jobs binding of the render that created the closure. -/
def searchJobsClosure (capturedJobs : List Job) (s : JobState) (text : String) : JobState :=
  if text = "" then { s with filteredJobs := capturedJobs }
  else { s with filteredJobs := capturedJobs.filter (fun j => jobMatches text j) }

/-- Embeds searchJobs as invoked directly from the UI: searchJobs is recreated
on every render, so such a call captures the state's current jobs list. -/
def searchJobs (s : JobState) (text : String) : JobState :=
  searchJobsClosure s.jobs s text

/-- Embeds loadMoreJobs of JobContext at its default argument page + 1.
loadMoreJobs is recreated each render, so its own guard reads the current
flags; the inner fetchJobs is the memoized closure whose captured flags are
false, so the fetch body runs; and the trailing searchJobs with the empty text
is the invoking render's closure, whose captured jobs list is the pre-append
list. -/
def loadMoreJobs (s : JobState) (outcome : FetchOutcome) (genId : Nat → String) : JobState :=
  if s.loadingMore || s.loading then s
  else
    let p := s.page + 1
    let s1 := { s with loadingMore := true, page := p }
    let s2 := fetchJobsClosure false false s1 p true outcome genId
    searchJobsClosure s.jobs s2 ""

/-- Embeds addJob of JobContext: a no-op when find locates a saved job with the
same identifier, an append at the end otherwise. -/
def addJob (s : JobState) (job : Job) : JobState :=
  match s.savedJobs.find? (fun x => x.id == job.id) with
  | some _ => s
  | none => { s with savedJobs := s.savedJobs ++ [job] }

/-- Embeds removeJob of JobContext. -/
def removeJob (s : JobState) (jobId : String) : JobState :=
  { s with savedJobs := s.savedJobs.filter (fun x => x.id != jobId) }

/-- State of JobProvider at mount. -/
def initialState : JobState :=
  { savedJobs := [], jobs := [], filteredJobs := [],
    loading := false, loadingMore := false, page := 1 }

/-- States reachable through the store operations from the initial state. -/
inductive Reachable : JobState → Prop
  | init : Reachable initialState
  | fetch (s : JobState) (p : Nat) (a : Bool) (o : FetchOutcome) (g : Nat → String) :
      Reachable s → Reachable (fetchJobs s p a o g)
  | loadMore (s : JobState) (o : FetchOutcome) (g : Nat → String) :
      Reachable s → Reachable (loadMoreJobs s o g)
  | search (s : JobState) (t : String) : Reachable s → Reachable (searchJobs s t)
  | add (s : JobState) (j : Job) : Reachable s → Reachable (addJob s j)
  | remove (s : JobState) (i : String) : Reachable s → Reachable (removeJob s i)

/-- Spec wording of the search predicate of claim C1: case-insensitive substring
match against the concatenation of the six fields. Written from the spec, to be
compared with jobMatches, which is written from the source. -/
def specConcatMatches (text : String) (j : Job) : Bool :=
  strIncludes
    (jsToLower (j.title ++ j.companyName ++ j.mainCategory ++ j.jobType ++ j.workModel ++ j.seniorityLevel))
    (jsToLower text)

/-- Sample job used by concrete witnesses and counterexamples. -/
def exJob1 : Job :=
  { id := "j1", title := "ab", companyName := "cd", mainCategory := "xx",
    pubDate := JSVal.num (JSNum.int 0), expiryDate := JSVal.num (JSNum.int 0),
    companyLogo := "", jobType := "xx", workModel := "xx", seniorityLevel := "xx",
    minSalary := JSVal.nullv, maxSalary := JSVal.nullv }

/-- Sample state holding exJob1, not busy. -/
def exState1 : JobState :=
  { savedJobs := [], jobs := [exJob1], filteredJobs := [exJob1],
    loading := false, loadingMore := false, page := 1 }

/-- Sample busy state. -/
def exBusyState : JobState :=
  { exState1 with loading := true }

/-- Sample identifier generator standing in for the uuid source. -/
def exGen (n : Nat) : String :=
  String.mk (List.replicate n 'x')

/-- Raw record with every optional field absent and every numeric field
undefined. -/
def exRawMissing : RawJob :=
  { title := none, mainCategory := none, pubDate := JSVal.undef,
    expiryDate := JSVal.undef, companyName := none, jobType := none,
    workModel := none, seniorityLevel := none, minSalary := JSVal.undef,
    maxSalary := JSVal.undef, companyLogo := none }

/-- Lower-casing the empty string gives the empty string. -/
theorem jsToLower_empty : jsToLower "" = "" := rfl

/-- Every string includes the empty string, as in JavaScript. -/
theorem strIncludes_empty_needle (hay : String) : strIncludes hay "" = true := by
  unfold strIncludes
  apply List.any_eq_true.mpr
  exact ⟨0, List.mem_range.mpr (Nat.succ_pos _), rfl⟩

/-- Every job matches the empty search text. -/
theorem jobMatches_empty (j : Job) : jobMatches "" j = true := by
  simp [jobMatches, jsToLower_empty, strIncludes_empty_needle]

/-- Claim C7: calling search with the empty string makes filteredJobs equal to
allJobs, element for element and in the same order. -/
theorem searchJobs_empty_restores_allJobs (s : JobState) :
    (searchJobs s "").filteredJobs = s.jobs := by
  simp [searchJobs, searchJobsClosure]

/-- Claim C10: searchJobs modifies only filteredJobs; allJobs, savedJobs, the
page cursor and both busy flags are left unchanged, for every search text. -/
theorem searchJobs_frame (s : JobState) (t : String) :
    (searchJobs s t).jobs = s.jobs ∧
    (searchJobs s t).savedJobs = s.savedJobs ∧
    (searchJobs s t).page = s.page ∧
    (searchJobs s t).loading = s.loading ∧
    (searchJobs s t).loadingMore = s.loadingMore := by
  unfold searchJobs searchJobsClosure
  by_cases h : t = "" <;> simp [h]

/-- Claim C3, evaluated on the code: the busy guard of fetchJobs is dead. The
memoized closure compares the flag values it captured at the first render, both
false, so a call made while loading is set is not a no-op: the fetch body runs
and, here, appends the fetched record onto allJobs. -/
theorem fetchJobs_busy_not_noop :
    exBusyState.loading = true ∧
    (fetchJobs exBusyState 2 true (FetchOutcome.success [exRawMissing]) exGen).jobs
      ≠ exBusyState.jobs := by
  decide

/-- Claim C2, evaluated on the code: the source expression Number(x) ?? null
stores NaN, not the null marker, for an absent or non-numeric field, because
Number never returns null or undefined and so the nullish fallback is dead
code. -/
theorem normalizeNum_missing_gives_nan :
    normalizeNum JSVal.undef = JSVal.num JSNum.nan ∧
    normalizeNum JSVal.undef ≠ JSVal.nullv ∧
    normalizeNum (JSVal.str "not a number") = JSVal.num JSNum.nan ∧
    (mkJob "a" exRawMissing).minSalary = JSVal.num JSNum.nan ∧
    (mkJob "a" exRawMissing).pubDate = JSVal.num JSNum.nan := by
  decide

/-- Claim C6: ApplicationFormScreen classifies a posting whose expiry timestamp
lies 2 days (172800 seconds) after the current time as expiring soon —
isExpiryNear is true, rendering the "Expires soon!" warning, because the gap is
below the 432000-second window — and does not so classify a posting 10 days
(864000 seconds) out, for every positive current time. -/
theorem isExpiryNear_classification :
    (∀ today : Int, 0 < today →
      isExpiryNear (JSVal.num (JSNum.int (today + 172800))) today = true) ∧
    (∀ today : Int, 0 < today →
      isExpiryNear (JSVal.num (JSNum.int (today + 864000))) today = false) := by
  constructor
  · intro today h
    have h1 : (today + 172800 : Int) ≠ 0 := by omega
    have h2 : (today + 172800 : Int) - today < 432000 := by omega
    simp [isExpiryNear, jsTruthy, jsToNumber, jsNumSub, jsNumLt, h1, h2]
  · intro today h
    have h2 : ¬ ((today + 864000 : Int) - today < 432000) := by omega
    simp [isExpiryNear, jsTruthy, jsToNumber, jsNumSub, jsNumLt, h2]

/-- Witness for claim C6 at a concrete current time. -/
theorem isExpiryNear_classification_witness :
    isExpiryNear (JSVal.num (JSNum.int (1700000000 + 172800))) 1700000000 = true ∧
    isExpiryNear (JSVal.num (JSNum.int (1700000000 + 864000))) 1700000000 = false :=
  ⟨isExpiryNear_classification.1 1700000000 (by norm_num),
   isExpiryNear_classification.2 1700000000 (by norm_num)⟩

/-- Counterexample to claim C1: searching is not a substring match against the
concatenation of the six fields. In exState1 the single job has title "ab" and
company name "cd", so the concatenation "abcdxxxxxxxx" contains "bc" and the
claim predicts the job is kept, but the source matches each field separately
and filters it out. -/
theorem searchJobs_concat_counterexample :
    ¬ ((searchJobs exState1 "bc").filteredJobs
        = exState1.jobs.filter (fun j => specConcatMatches "bc" j)) := by
  decide

/-- Claim C1 amended: for every state and search text, searchJobs sets
filteredJobs to exactly those postings of allJobs, in order, for which at least
one of the six fields (title, company name, category, job type, work model,
seniority level) case-insensitively contains the text; the empty text matches
every posting, so filteredJobs then equals allJobs. -/
theorem searchJobs_filters_by_field_match (s : JobState) (t : String) :
    (searchJobs s t).filteredJobs = s.jobs.filter (fun j => jobMatches t j) := by
  by_cases h : t = ""
  · subst h
    simp only [searchJobs, searchJobsClosure, if_pos rfl]
    exact (List.filter_eq_self.mpr (fun j _ => jobMatches_empty j)).symm
  · simp [searchJobs, searchJobsClosure, h]

/-- Claim C4: a fetch from a non-busy state that fails — transport error or a
payload whose jobs field is not an array — leaves allJobs, filteredJobs,
savedJobs and the page cursor unchanged, and every fetch from a non-busy state,
success or failure, ends with both busy flags cleared. -/
theorem fetchJobs_failure_frame (s : JobState) (p : Nat) (a : Bool)
    (o : FetchOutcome) (g : Nat → String)
    (h1 : s.loading = false) (h2 : s.loadingMore = false) :
    ((o = FetchOutcome.badPayload ∨ o = FetchOutcome.networkError) →
      (fetchJobs s p a o g).jobs = s.jobs ∧
      (fetchJobs s p a o g).filteredJobs = s.filteredJobs ∧
      (fetchJobs s p a o g).savedJobs = s.savedJobs ∧
      (fetchJobs s p a o g).page = s.page) ∧
    (fetchJobs s p a o g).loading = false ∧
    (fetchJobs s p a o g).loadingMore = false := by
  cases o <;> cases a <;> by_cases hp : p = 1 <;>
    simp [fetchJobs, fetchJobsClosure, fetchJobsGo, h1, h2, hp]

/-- Witness for claim C4 at a concrete non-busy state and a bad payload. -/
theorem fetchJobs_failure_frame_witness :
    ((FetchOutcome.badPayload = FetchOutcome.badPayload ∨
        FetchOutcome.badPayload = FetchOutcome.networkError) →
      (fetchJobs exState1 1 false FetchOutcome.badPayload exGen).jobs = exState1.jobs ∧
      (fetchJobs exState1 1 false FetchOutcome.badPayload exGen).filteredJobs
        = exState1.filteredJobs ∧
      (fetchJobs exState1 1 false FetchOutcome.badPayload exGen).savedJobs
        = exState1.savedJobs ∧
      (fetchJobs exState1 1 false FetchOutcome.badPayload exGen).page = exState1.page) ∧
    (fetchJobs exState1 1 false FetchOutcome.badPayload exGen).loading = false ∧
    (fetchJobs exState1 1 false FetchOutcome.badPayload exGen).loadingMore = false :=
  fetchJobs_failure_frame exState1 1 false FetchOutcome.badPayload exGen rfl rfl

/-- Counterexample to claim C5: after loadMoreJobs from exState1 with one
fetched record, filteredJobs does not equal allJobs — the trailing empty search
runs in the invoking render's closure over the pre-append jobs list, so the
appended record appears in allJobs but not in filteredJobs. -/
theorem loadMoreJobs_reset_counterexample :
    ¬ ((loadMoreJobs exState1 (FetchOutcome.success [exRawMissing]) exGen).filteredJobs
        = (loadMoreJobs exState1 (FetchOutcome.success [exRawMissing]) exGen).jobs) := by
  decide

/-- Claim C5 amended: from a non-busy state, loadMoreJobs advances the page
cursor by one and appends the fetched records onto allJobs, but the trailing
empty search runs in the stale closure of the invoking render, so filteredJobs
ends equal to the pre-append allJobs rather than the extended list (any active
filter is still reset, to the old full list); savedJobs is untouched and both
busy flags end cleared. -/
theorem loadMoreJobs_appends_with_stale_reset (s : JobState) (raws : List RawJob)
    (g : Nat → String) (h1 : s.loading = false) (h2 : s.loadingMore = false) :
    (loadMoreJobs s (FetchOutcome.success raws) g).page = s.page + 1 ∧
    (loadMoreJobs s (FetchOutcome.success raws) g).jobs = s.jobs ++ mapRawJobs g raws ∧
    (loadMoreJobs s (FetchOutcome.success raws) g).filteredJobs = s.jobs ∧
    (loadMoreJobs s (FetchOutcome.success raws) g).savedJobs = s.savedJobs ∧
    (loadMoreJobs s (FetchOutcome.success raws) g).loading = false ∧
    (loadMoreJobs s (FetchOutcome.success raws) g).loadingMore = false := by
  by_cases hp : s.page + 1 = 1 <;>
    simp [loadMoreJobs, fetchJobsClosure, fetchJobsGo, searchJobsClosure, h1, h2, hp]

/-- Witness for the amended claim C5 at a concrete non-busy state with one
fetched record. -/
theorem loadMoreJobs_appends_with_stale_reset_witness :
    (loadMoreJobs exState1 (FetchOutcome.success [exRawMissing]) exGen).page
      = exState1.page + 1 ∧
    (loadMoreJobs exState1 (FetchOutcome.success [exRawMissing]) exGen).jobs
      = exState1.jobs ++ mapRawJobs exGen [exRawMissing] ∧
    (loadMoreJobs exState1 (FetchOutcome.success [exRawMissing]) exGen).filteredJobs
      = exState1.jobs ∧
    (loadMoreJobs exState1 (FetchOutcome.success [exRawMissing]) exGen).savedJobs
      = exState1.savedJobs ∧
    (loadMoreJobs exState1 (FetchOutcome.success [exRawMissing]) exGen).loading = false ∧
    (loadMoreJobs exState1 (FetchOutcome.success [exRawMissing]) exGen).loadingMore
      = false :=
  loadMoreJobs_appends_with_stale_reset exState1 [exRawMissing] exGen rfl rfl

/-- Saved jobs have pairwise distinct identifiers. -/
def DistinctIds (l : List Job) : Prop :=
  l.Pairwise (fun a b => a.id ≠ b.id)

/-- The fetch body never touches savedJobs. -/
theorem fetchJobsGo_savedJobs (s : JobState) (p : Nat) (a : Bool)
    (o : FetchOutcome) (g : Nat → String) :
    (fetchJobsGo s p a o g).savedJobs = s.savedJobs := by
  cases o <;> cases a <;> by_cases hp : p = 1 <;> simp [fetchJobsGo, hp]

/-- fetchJobs never touches savedJobs. -/
theorem fetchJobs_savedJobs (s : JobState) (p : Nat) (a : Bool)
    (o : FetchOutcome) (g : Nat → String) :
    (fetchJobs s p a o g).savedJobs = s.savedJobs := by
  simp [fetchJobs, fetchJobsClosure, fetchJobsGo_savedJobs]

/-- The search closure never touches savedJobs. -/
theorem searchJobsClosure_savedJobs (c : List Job) (s : JobState) (t : String) :
    (searchJobsClosure c s t).savedJobs = s.savedJobs := by
  unfold searchJobsClosure
  split <;> rfl

/-- searchJobs never touches savedJobs. -/
theorem searchJobs_savedJobs (s : JobState) (t : String) :
    (searchJobs s t).savedJobs = s.savedJobs := by
  unfold searchJobs
  exact searchJobsClosure_savedJobs s.jobs s t

/-- loadMoreJobs never touches savedJobs. -/
theorem loadMoreJobs_savedJobs (s : JobState) (o : FetchOutcome) (g : Nat → String) :
    (loadMoreJobs s o g).savedJobs = s.savedJobs := by
  unfold loadMoreJobs
  split
  · rfl
  · simp [searchJobsClosure_savedJobs, fetchJobsClosure, fetchJobsGo_savedJobs]

/-- addJob preserves distinctness of the saved identifiers. -/
theorem addJob_preserves_distinct (s : JobState) (j : Job)
    (h : DistinctIds s.savedJobs) : DistinctIds (addJob s j).savedJobs := by
  unfold addJob
  split
  · exact h
  · rename_i hf
    have hall := List.find?_eq_none.mp hf
    refine List.pairwise_append.mpr ⟨h, by simp, ?_⟩
    intro a ha b hb
    have hb2 : b = j := List.mem_singleton.mp hb
    subst hb2
    intro heq
    exact hall a ha (by simp [heq])

/-- removeJob preserves distinctness of the saved identifiers. -/
theorem removeJob_preserves_distinct (s : JobState) (i : String)
    (h : DistinctIds s.savedJobs) : DistinctIds (removeJob s i).savedJobs :=
  List.Pairwise.sublist (List.filter_sublist _) h

/-- Equation for addJob when a saved job with the same identifier is found. -/
theorem addJob_found (s : JobState) (j y : Job)
    (hf : s.savedJobs.find? (fun x => x.id == j.id) = some y) :
    addJob s j = s := by
  unfold addJob
  rw [hf]

/-- Equation for addJob when no saved job carries the identifier. -/
theorem addJob_not_found (s : JobState) (j : Job)
    (hf : s.savedJobs.find? (fun x => x.id == j.id) = none) :
    (addJob s j).savedJobs = s.savedJobs ++ [j] := by
  unfold addJob
  rw [hf]

/-- Claim C8: addJob is idempotent. If a saved posting already carries the new
job's identifier, addJob changes nothing; otherwise it appends the job at the
end; and from any state whose saved list holds the identifier at most once
(the reachable-state invariant), two successive addJob calls leave exactly one
occurrence of the identifier. -/
theorem addJob_idempotent (s : JobState) (j : Job)
    (hcount : (s.savedJobs.filter (fun x => x.id == j.id)).length ≤ 1) :
    ((∃ x ∈ s.savedJobs, x.id = j.id) → addJob s j = s) ∧
    ((∀ x ∈ s.savedJobs, x.id ≠ j.id) → (addJob s j).savedJobs = s.savedJobs ++ [j]) ∧
    addJob (addJob s j) j = addJob s j ∧
    ((addJob (addJob s j) j).savedJobs.filter (fun x => x.id == j.id)).length = 1 := by
  cases hf : s.savedJobs.find? (fun x => x.id == j.id) with
  | some y =>
      have h1 : addJob s j = s := addJob_found s j y hf
      have hy_mem : y ∈ s.savedJobs := List.mem_of_find?_eq_some hf
      have hy_p : y.id = j.id := by
        have h := List.find?_some hf
        simpa using h
      refine ⟨fun _ => h1, ?_, by rw [h1, h1], ?_⟩
      · intro hall
        exact absurd hy_p (hall y hy_mem)
      · rw [h1, h1]
        have hmem : y ∈ s.savedJobs.filter (fun x => x.id == j.id) :=
          List.mem_filter.mpr ⟨hy_mem, by simp [hy_p]⟩
        have hpos : 0 < (s.savedJobs.filter (fun x => x.id == j.id)).length :=
          List.length_pos.mpr (List.ne_nil_of_mem hmem)
        omega
  | none =>
      have hall := List.find?_eq_none.mp hf
      have h1 : (addJob s j).savedJobs = s.savedJobs ++ [j] := addJob_not_found s j hf
      have h2 : addJob (addJob s j) j = addJob s j := by
        cases hf2 : (addJob s j).savedJobs.find? (fun x => x.id == j.id) with
        | some z => exact addJob_found (addJob s j) j z hf2
        | none =>
            exfalso
            have hj_mem : j ∈ (addJob s j).savedJobs := by
              rw [h1]
              exact List.mem_append.mpr (Or.inr (List.mem_singleton.mpr rfl))
            exact List.find?_eq_none.mp hf2 j hj_mem (by simp)
      refine ⟨?_, fun _ => h1, h2, ?_⟩
      · intro hex
        exfalso
        rcases hex with ⟨x, hx, hid⟩
        exact hall x hx (by simp [hid])
      · rw [h2, h1, List.filter_append]
        have hnil : s.savedJobs.filter (fun x => x.id == j.id) = [] :=
          List.filter_eq_nil_iff.mpr hall
        rw [hnil]
        simp

/-- Witness for claim C8 at the empty initial state and a concrete job. -/
theorem addJob_idempotent_witness :
    addJob (addJob initialState exJob1) exJob1 = addJob initialState exJob1 ∧
    ((addJob (addJob initialState exJob1) exJob1).savedJobs.filter
        (fun x => x.id == exJob1.id)).length = 1 :=
  ⟨(addJob_idempotent initialState exJob1 (by decide)).2.2.1,
   (addJob_idempotent initialState exJob1 (by decide)).2.2.2⟩

/-- Claim C9: in every reachable state the saved identifiers are pairwise
distinct; the invariant is preserved by addJob and removeJob, and fetchJobs,
loadMoreJobs and searchJobs leave savedJobs itself unchanged. -/
theorem savedJobs_distinct_invariant :
    (∀ s : JobState, Reachable s → DistinctIds s.savedJobs) ∧
    (∀ (s : JobState) (p : Nat) (a : Bool) (o : FetchOutcome) (g : Nat → String),
      (fetchJobs s p a o g).savedJobs = s.savedJobs) ∧
    (∀ (s : JobState) (o : FetchOutcome) (g : Nat → String),
      (loadMoreJobs s o g).savedJobs = s.savedJobs) ∧
    (∀ (s : JobState) (t : String), (searchJobs s t).savedJobs = s.savedJobs) ∧
    (∀ (s : JobState) (j : Job),
      DistinctIds s.savedJobs → DistinctIds (addJob s j).savedJobs) ∧
    (∀ (s : JobState) (i : String),
      DistinctIds s.savedJobs → DistinctIds (removeJob s i).savedJobs) := by
  refine ⟨?_, fetchJobs_savedJobs, loadMoreJobs_savedJobs, searchJobs_savedJobs,
    addJob_preserves_distinct, removeJob_preserves_distinct⟩
  intro s hs
  induction hs with
  | init => exact List.Pairwise.nil
  | fetch s p a o g hr ih => rw [fetchJobs_savedJobs]; exact ih
  | loadMore s o g hr ih => rw [loadMoreJobs_savedJobs]; exact ih
  | search s t hr ih => rw [searchJobs_savedJobs]; exact ih
  | add s j hr ih => exact addJob_preserves_distinct s j ih
  | remove s i hr ih => exact removeJob_preserves_distinct s i ih

/-- Witness for claim C9 at a concrete reachable state and a concrete search. -/
theorem savedJobs_distinct_invariant_witness :
    DistinctIds (addJob initialState exJob1).savedJobs ∧
    (searchJobs exState1 "x").savedJobs = exState1.savedJobs :=
  ⟨savedJobs_distinct_invariant.1 (addJob initialState exJob1)
      (Reachable.add initialState exJob1 Reachable.init),
   savedJobs_distinct_invariant.2.2.2.1 exState1 "x"⟩

end JobDirectory
